import Mathlib

/-!
Verification of the Discord logo bot (`discord_logo_bot.py`, `logo_generator.py`).

The bot registers one slash command `/logo` whose handler:
1. short-circuits with a private notice when the remote generator reference
   (`generate_logo_svg`) failed to import at startup;
2. composes a full prompt from the user prompt and an optional style preset;
3. defers the interaction response, invokes the remote generator, and either
   sends the returned SVG as a timestamp-named file attachment with a summary
   embed, or, on an exception, a private error embed.

The handler is shallowly embedded as a pure function producing a trace of
platform-visible events; the remote call is a parameter returning either an
SVG string or an exception message.
-/

namespace LogoBot

/-- A slash-command choice preset: a display `name` and a `value` string,
mirroring `app_commands.Choice(name=..., value=...)`. -/
structure Choice where
  name : String
  value : String
  deriving DecidableEq, Repr

/-- The five style presets registered on the `style` parameter
(`@app_commands.choices(style=[...])`, lines 50-56). -/
def styleChoices : List Choice :=
  [⟨"Cyberpunk", "cyberpunk neon with circuit patterns"⟩,
   ⟨"Minimalist", "minimalist geometric clean"⟩,
   ⟨"Retro", "retro 80s synthwave"⟩,
   ⟨"Gaming", "gaming esports bold"⟩,
   ⟨"Tech Startup", "modern tech startup professional"⟩]

/-- Prompt composition (lines 72-75): `full_prompt = prompt`, replaced by
`f"{prompt} in {style.value} style"` when a style choice is present.
A `Choice` object is always truthy in Python, so `if style:` distinguishes
exactly `None` from a present choice. -/
def fullPrompt (prompt : String) (style : Option Choice) : String :=
  match style with
  | none => prompt
  | some c => prompt ++ " in " ++ c.value ++ " style"

/-- A wall-clock instant as used by `datetime.now()`: the six fields consumed
by the `%Y%m%d_%H%M%S` format. -/
structure DateTime where
  year : Nat
  month : Nat
  day : Nat
  hour : Nat
  minute : Nat
  second : Nat
  deriving DecidableEq, Repr

/-- The range invariants `datetime` guarantees for a real instant
(`datetime.MINYEAR = 1`, `datetime.MAXYEAR = 9999`). -/
def DateTime.Valid (t : DateTime) : Prop :=
  1 ≤ t.year ∧ t.year ≤ 9999 ∧ 1 ≤ t.month ∧ t.month ≤ 12 ∧
  1 ≤ t.day ∧ t.day ≤ 31 ∧ t.hour ≤ 23 ∧ t.minute ≤ 59 ∧ t.second ≤ 59

instance (t : DateTime) : Decidable t.Valid := by
  unfold DateTime.Valid
  infer_instance

/-- Zero-padded two-digit decimal rendering, as `strftime` `%m`, `%d`, `%H`,
`%M`, `%S` produce for their in-range arguments. -/
def pad2 (n : Nat) : List Char :=
  [Nat.digitChar (n / 10 % 10), Nat.digitChar (n % 10)]

/-- Zero-padded four-digit decimal rendering, as `strftime` `%Y` produces for
years up to 9999 (the `datetime` maximum). -/
def pad4 (n : Nat) : List Char :=
  [Nat.digitChar (n / 1000 % 10), Nat.digitChar (n / 100 % 10),
   Nat.digitChar (n / 10 % 10), Nat.digitChar (n % 10)]

/-- `datetime.now().strftime('%Y%m%d_%H%M%S')` (line 87). -/
def strftimeYmdHMS (t : DateTime) : String :=
  String.mk (pad4 t.year ++ pad2 t.month ++ pad2 t.day ++ ['_'] ++
             pad2 t.hour ++ pad2 t.minute ++ pad2 t.second)

/-- UTF-8 encoding of one character's code point, byte values as `Nat`. -/
def utf8EncodeCharNat (c : Char) : List Nat :=
  let n := c.toNat
  if n < 0x80 then [n]
  else if n < 0x800 then
    [0xC0 ||| (n >>> 6), 0x80 ||| (n &&& 0x3F)]
  else if n < 0x10000 then
    [0xE0 ||| (n >>> 12), 0x80 ||| ((n >>> 6) &&& 0x3F), 0x80 ||| (n &&& 0x3F)]
  else
    [0xF0 ||| (n >>> 18), 0x80 ||| ((n >>> 12) &&& 0x3F),
     0x80 ||| ((n >>> 6) &&& 0x3F), 0x80 ||| (n &&& 0x3F)]

/-- `svg_code.encode('utf-8')` (line 86): the byte sequence of the string's
UTF-8 encoding. -/
def utf8Bytes (s : String) : List Nat :=
  s.data.flatMap utf8EncodeCharNat

/-- Outcome of the remote `generate_logo_svg.remote(...)` call: either the
returned SVG string or the message of a raised exception. -/
inductive RemoteResult where
  | ok (svg : String)
  | raise (msg : String)
  deriving DecidableEq, Repr

/-- The platform-visible actions the handler performs, in order. -/
inductive Event where
  /-- `interaction.response.send_message(text, ephemeral=...)` -/
  | respond (text : String) (ephemeral : Bool)
  /-- `interaction.response.defer()` -/
  | defer
  /-- the remote call `generate_logo_svg.remote(prompt=p)` with argument `p` -/
  | remoteCall (prompt : String)
  /-- `interaction.followup.send(embed=..., file=...)`: one attachment with
  the given filename and byte content, an embed with the given description,
  sent to the channel (`ephemeral` false) -/
  | followupFile (filename : String) (content : List Nat)
      (embedDesc : String) (ephemeral : Bool)
  /-- `interaction.followup.send(embed=error_embed, ephemeral=True)`:
  an error embed with the given description -/
  | followupError (embedDesc : String) (ephemeral : Bool)
  deriving DecidableEq, Repr

/-- The ephemeral notice sent when the import of the remote function failed
(lines 66-69). -/
def modalUnavailableMsg : String :=
  "❌ Modal app not connected. Please check the bot logs."

/-- The `/logo` handler `generate_logo` (lines 57-105), as the trace of events
it performs. `gen` is the module-level `generate_logo_svg` reference: `none`
when the import failed (line 38), otherwise the remote call's behaviour.
`now` is the instant `datetime.now()` returns on line 87. -/
def generate_logo (gen : Option (String → RemoteResult)) (now : DateTime)
    (prompt : String) (style : Option Choice) : List Event :=
  match gen with
  | none => [.respond modalUnavailableMsg true]
  | some remote =>
    let full_prompt := fullPrompt prompt style
    Event.defer :: Event.remoteCall full_prompt ::
      match remote full_prompt with
      | .ok svg_code =>
          [.followupFile ("logo_" ++ strftimeYmdHMS now ++ ".svg")
             (utf8Bytes svg_code) ("**Prompt:** " ++ full_prompt) false]
      | .raise e =>
          [.followupError ("```" ++ e ++ "```") true]

/-- Whether an event is an invocation of the remote generator. -/
def Event.isRemoteCall : Event → Bool
  | .remoteCall _ => true
  | _ => false

/-- The (filename, content) pairs of the file attachments in a trace. -/
def fileEvents : List Event → List (String × List Nat)
  | [] => []
  | .followupFile fn content _ _ :: rest => (fn, content) :: fileEvents rest
  | _ :: rest => fileEvents rest

/-- The embed descriptions of the success followups in a trace. -/
def successDescs : List Event → List String
  | [] => []
  | .followupFile _ _ d _ :: rest => d :: successDescs rest
  | _ :: rest => successDescs rest

/-- The (description, ephemeral) pairs of the error followups in a trace. -/
def errorEvents : List Event → List (String × Bool)
  | [] => []
  | .followupError d e :: rest => (d, e) :: errorEvents rest
  | _ :: rest => errorEvents rest

/-- `s` is a 14-digit timestamp `YYYYMMDD_HHMMSS`: eight decimal digits, an
underscore, six decimal digits. -/
def isTimestamp14 (s : String) : Bool :=
  match s.data with
  | [a, b, c, d, e, f, g, h, u, i, j, k, l, m, n] =>
      [a, b, c, d, e, f, g, h].all Char.isDigit && u == '_' &&
      [i, j, k, l, m, n].all Char.isDigit
  | _ => false

end LogoBot

namespace LogoGenerator

/-- The remote generator stub `generate_logo_svg` in `logo_generator.py`
(lines 5-9): returns the constant placeholder SVG for every prompt. Its body
is a single `return` of a literal, so it cannot raise; totality of this
definition reflects that. -/
def generate_logo_svg (prompt : String) : String :=
  "<svg>...</svg>"

end LogoGenerator

namespace LogoBot

/-- Python truthiness of an optional string: `None` and `""` are falsy. -/
def truthyStr : Option String → Bool
  | none => false
  | some s => !(s == "")

/-- Python `a or b` on two optional strings: `b` when `a` is falsy. -/
def pyOrStr (a b : Option String) : Option String :=
  if truthyStr a then a else b

/-- Token resolution (lines 133 and 167):
`os.getenv("DISCORD_BOT_TOKE") or os.getenv("DISCORD_BOT_TOKEN")`.
`env` maps a variable name to its value, `none` when unset. -/
def resolveToken (env : String → Option String) : Option String :=
  pyOrStr (env "DISCORD_BOT_TOKE") (env "DISCORD_BOT_TOKEN")

/-- Outcome of the `__main__` path when no event loop is running
(lines 165-175). -/
inductive MainOutcome where
  /-- `print("❌ Error: DISCORD_BOT_TOKEN not set in .env file"); exit(1)` -/
  | errorExit1
  /-- `client.run(TOKEN)` with the resolved token -/
  | runBot (token : String)
  deriving DecidableEq, Repr

/-- The `__main__` path (lines 165-175): resolve the token; if it is falsy,
print the error and exit with code 1, otherwise start the bot with it. -/
def mainPath (env : String → Option String) : MainOutcome :=
  match resolveToken env with
  | none => .errorExit1
  | some t => if t == "" then .errorExit1 else .runBot t

end LogoBot

namespace LogoBot

/-! ## Helper lemmas -/

/-- Every last decimal digit renders as a digit character. -/
theorem digitChar_mod_isDigit (n : Nat) :
    (Nat.digitChar (n % 10)).isDigit = true := by
  have h : ∀ m, m < 10 → (Nat.digitChar m).isDigit = true := by decide
  exact h _ (Nat.mod_lt _ (by norm_num))

/-- The `%Y%m%d_%H%M%S` rendering of any instant is a 14-digit timestamp. -/
theorem isTimestamp14_strftime (t : DateTime) :
    isTimestamp14 (strftimeYmdHMS t) = true := by
  simp [isTimestamp14, strftimeYmdHMS, pad4, pad2, digitChar_mod_isDigit]

/-! ## Claims -/

/-- C1: with a non-null style choice, the composed prompt passed to the
remote generator equals `"<prompt> in <style value> style"`; in particular
the preset named "Retro" has value "retro 80s synthwave" and prompt "a fox"
with it composes to "a fox in retro 80s synthwave style". -/
theorem composed_prompt_with_style (remote : String → RemoteResult)
    (now : DateTime) (p : String) (c : Choice) :
    (∃ rest, generate_logo (some remote) now p (some c) =
      Event.defer :: Event.remoteCall (p ++ " in " ++ c.value ++ " style") :: rest) ∧
    fullPrompt "a fox" (some ⟨"Retro", "retro 80s synthwave"⟩) =
      "a fox in retro 80s synthwave style" ∧
    Choice.mk "Retro" "retro 80s synthwave" ∈ styleChoices :=
  ⟨⟨_, rfl⟩, rfl, by decide⟩

/-- C2: with no style choice, the composed prompt passed to the remote
generator is the raw user prompt, unchanged. -/
theorem composed_prompt_no_style (remote : String → RemoteResult)
    (now : DateTime) (p : String) :
    ∃ rest, generate_logo (some remote) now p none =
      Event.defer :: Event.remoteCall p :: rest :=
  ⟨_, rfl⟩

/-- C3: when the remote generator reference is unset, the handler performs no
remote call and its whole trace is exactly one ephemeral error message. -/
theorem unavailable_backend_short_circuits (now : DateTime) (p : String)
    (style : Option Choice) :
    generate_logo none now p style = [Event.respond modalUnavailableMsg true] ∧
    (generate_logo none now p style).countP Event.isRemoteCall = 0 :=
  ⟨rfl, rfl⟩

/-- C4: when the remote generator is available, the deferred acknowledgment
is the first event of the trace and the remote call comes strictly after it:
the remote call never precedes the acknowledgment. -/
theorem defer_precedes_remote_call (remote : String → RemoteResult)
    (now : DateTime) (p : String) (style : Option Choice) :
    ∃ rest, generate_logo (some remote) now p style =
      Event.defer :: Event.remoteCall (fullPrompt p style) :: rest :=
  ⟨_, rfl⟩

/-- C5: when the remote call succeeds, the trace carries exactly one file
attachment, named `logo_<ts>.svg` where `<ts>` is the `%Y%m%d_%H%M%S`
rendering of the current time, a 14-digit timestamp. -/
theorem success_single_svg_attachment (remote : String → RemoteResult)
    (now : DateTime) (p : String) (style : Option Choice) (svg : String)
    (hv : now.Valid)
    (hok : remote (fullPrompt p style) = RemoteResult.ok svg) :
    ∃ ts, (fileEvents (generate_logo (some remote) now p style)).map Prod.fst =
        ["logo_" ++ ts ++ ".svg"] ∧
      ts = strftimeYmdHMS now ∧ isTimestamp14 ts = true := by
  refine ⟨strftimeYmdHMS now, ?_, rfl, isTimestamp14_strftime now⟩
  simp [generate_logo, hok, fileEvents]

/-- C5 witness: a concrete successful invocation. -/
theorem success_single_svg_attachment_witness :
    ∃ ts, (fileEvents (generate_logo
        (some (fun _ => RemoteResult.ok "<svg>...</svg>"))
        ⟨2025, 1, 2, 3, 4, 5⟩ "cyber owl" none)).map Prod.fst =
        ["logo_" ++ ts ++ ".svg"] ∧
      ts = strftimeYmdHMS ⟨2025, 1, 2, 3, 4, 5⟩ ∧ isTimestamp14 ts = true :=
  success_single_svg_attachment _ _ _ _ "<svg>...</svg>" (by decide) rfl

/-- C6: when the remote call succeeds, the attachment's content is the UTF-8
encoding of exactly the SVG string the remote call returned, and the summary
embed displays the composed prompt. -/
theorem success_payload_and_summary (remote : String → RemoteResult)
    (now : DateTime) (p : String) (style : Option Choice) (svg : String)
    (hok : remote (fullPrompt p style) = RemoteResult.ok svg) :
    (fileEvents (generate_logo (some remote) now p style)).map Prod.snd =
      [utf8Bytes svg] ∧
    successDescs (generate_logo (some remote) now p style) =
      ["**Prompt:** " ++ fullPrompt p style] := by
  constructor <;> simp [generate_logo, hok, fileEvents, successDescs]

/-- C6 witness: the spec scenario, prompt "a fox" with no style and remote
result `<svg>x</svg>`. -/
theorem success_payload_and_summary_witness :
    (fileEvents (generate_logo (some (fun _ => RemoteResult.ok "<svg>x</svg>"))
        ⟨2025, 6, 7, 8, 9, 10⟩ "a fox" none)).map Prod.snd =
      [utf8Bytes "<svg>x</svg>"] ∧
    successDescs (generate_logo (some (fun _ => RemoteResult.ok "<svg>x</svg>"))
        ⟨2025, 6, 7, 8, 9, 10⟩ "a fox" none) =
      ["**Prompt:** " ++ fullPrompt "a fox" none] :=
  success_payload_and_summary _ _ _ _ "<svg>x</svg>" rfl

/-- C7: when the remote call raises, the only error followup is ephemeral and
its description contains the exception's string representation. -/
theorem failure_private_with_message (remote : String → RemoteResult)
    (now : DateTime) (p : String) (style : Option Choice) (msg : String)
    (hraise : remote (fullPrompt p style) = RemoteResult.raise msg) :
    errorEvents (generate_logo (some remote) now p style) =
      [("```" ++ msg ++ "```", true)] ∧
    ∃ pre suf, "```" ++ msg ++ "```" = pre ++ msg ++ suf := by
  refine ⟨?_, "```", "```", rfl⟩
  simp [generate_logo, hraise, errorEvents]

/-- C7 witness: a concrete raising invocation. -/
theorem failure_private_with_message_witness :
    errorEvents (generate_logo (some (fun _ => RemoteResult.raise "GPU timeout"))
        ⟨2025, 1, 1, 0, 0, 0⟩ "a fox" none) =
      [("```" ++ "GPU timeout" ++ "```", true)] ∧
    ∃ pre suf, "```" ++ "GPU timeout" ++ "```" = pre ++ "GPU timeout" ++ suf :=
  failure_private_with_message _ _ _ _ "GPU timeout" rfl

/-- C8: when the remote call raises, the remote function is called exactly
once (no retry), no file attachment is sent, and after the deferred
acknowledgment the only followup is the single failure notice. -/
theorem failure_no_retry_no_partial (remote : String → RemoteResult)
    (now : DateTime) (p : String) (style : Option Choice) (msg : String)
    (hraise : remote (fullPrompt p style) = RemoteResult.raise msg) :
    (generate_logo (some remote) now p style).countP Event.isRemoteCall = 1 ∧
    fileEvents (generate_logo (some remote) now p style) = [] ∧
    generate_logo (some remote) now p style =
      [Event.defer, Event.remoteCall (fullPrompt p style),
       Event.followupError ("```" ++ msg ++ "```") true] := by
  have htr : generate_logo (some remote) now p style =
      [Event.defer, Event.remoteCall (fullPrompt p style),
       Event.followupError ("```" ++ msg ++ "```") true] := by
    simp [generate_logo, hraise]
  rw [htr]
  exact ⟨rfl, rfl, rfl⟩

/-- C8 witness: a concrete raising invocation. -/
theorem failure_no_retry_no_partial_witness :
    (generate_logo (some (fun _ => RemoteResult.raise "boom"))
        ⟨2024, 12, 31, 23, 59, 59⟩ "p" none).countP Event.isRemoteCall = 1 ∧
    fileEvents (generate_logo (some (fun _ => RemoteResult.raise "boom"))
        ⟨2024, 12, 31, 23, 59, 59⟩ "p" none) = [] ∧
    generate_logo (some (fun _ => RemoteResult.raise "boom"))
        ⟨2024, 12, 31, 23, 59, 59⟩ "p" none =
      [Event.defer, Event.remoteCall (fullPrompt "p" none),
       Event.followupError ("```" ++ "boom" ++ "```") true] :=
  failure_no_retry_no_partial _ _ _ _ "boom" rfl

/-- C9: the remote generator stub returns the constant SVG markup string
`<svg>...</svg>` for every prompt; its embedding is total, reflecting that
the stub's single literal return cannot raise. -/
theorem stub_returns_constant_svg (p : String) :
    LogoGenerator.generate_logo_svg p = "<svg>...</svg>" :=
  rfl

/-- C10: the token is read from `DISCORD_BOT_TOKE` first, with fallback to
`DISCORD_BOT_TOKEN` exactly when the first is unset or empty; when both are
unset the `__main__` path prints the error and exits with code 1. -/
theorem token_resolution (env : String → Option String) :
    (∀ s : String, env "DISCORD_BOT_TOKE" = some s → s ≠ "" →
       resolveToken env = some s) ∧
    ((env "DISCORD_BOT_TOKE" = none ∨ env "DISCORD_BOT_TOKE" = some "") →
       resolveToken env = env "DISCORD_BOT_TOKEN") ∧
    (env "DISCORD_BOT_TOKE" = none → env "DISCORD_BOT_TOKEN" = none →
       mainPath env = MainOutcome.errorExit1) := by
  refine ⟨?_, ?_, ?_⟩
  · intro s hs hne
    simp [resolveToken, pyOrStr, truthyStr, hs, hne]
  · rintro (h | h) <;> simp [resolveToken, pyOrStr, truthyStr, h]
  · intro h1 h2
    simp [mainPath, resolveToken, pyOrStr, truthyStr, h1, h2]

/-- C10 witness: concrete environments for each branch: first variable set
and non-empty; first set but empty; both unset. -/
theorem token_resolution_witness :
    resolveToken (fun v => if v = "DISCORD_BOT_TOKE" then some "tok-a" else some "tok-b")
      = some "tok-a" ∧
    resolveToken (fun v => if v = "DISCORD_BOT_TOKE" then some "" else some "tok-b")
      = some "tok-b" ∧
    mainPath (fun _ => none) = MainOutcome.errorExit1 :=
  ⟨(token_resolution _).1 "tok-a" rfl (by decide),
   ((token_resolution _).2.1 (Or.inr rfl)).trans rfl,
   (token_resolution _).2.2 rfl rfl⟩

end LogoBot
